import Mathlib

/-!
Shallow embedding of the booking-dashboard core: the Resource Client
(src/api_client.py, AmeliaAPIClient._make_request) and the CSV transform,
validation, export and bulk-import layer (src/csv_handler.py, CSVHandler;
src/app.py, the Start Import loop).

Python dictionaries and JSON values are modelled by `JVal`; library calls
(json.loads, pandas.to_datetime, int(), str.isdigit) are modelled by
explicit Lean functions whose doc comments say what they model.
-/

/-- JSON-like values, modelling Python dict/list/scalar results. -/
inductive JVal where
  | null
  | bool (b : Bool)
  | int (n : Int)
  | str (s : String)
  | arr (xs : List JVal)
  | obj (fields : List (String × JVal))

/-- Python dict.get on an association list of JSON fields. -/
def jget (fields : List (String × JVal)) (k : String) : Option JVal :=
  (fields.find? (fun p => p.1 == k)).map (fun p => p.2)

/-- An HTTP response body: its raw text together with the result of parsing
it as JSON. The JSON parse of a body is performed by the json library in the
source, so the parse outcome is carried alongside the text. -/
structure Body where
  text : String
  json : Option JVal

/-- Outcome of the underlying requests.get/post/put/delete library call:
either a response with a status code and a body, or one of the exception
classes the source catches (ConnectionError, Timeout, RequestException). -/
inductive Transport where
  | response (status : Nat) (body : Body)
  | connectionError
  | timeout
  | requestError (msg : String)

/-- The four HTTP methods dispatched by _make_request. -/
def supportedMethods : List String := ["GET", "POST", "PUT", "DELETE"]

/-- Modelled from the library: Python str.upper restricted to ASCII text,
as applied to the method strings of this repository. -/
def pyUpper (s : String) : String := String.mk (s.data.map Char.toUpper)

/-- Result of AmeliaAPIClient._make_request, together with whether an
outbound HTTP call was issued at all. -/
structure ReqOutcome where
  result : JVal
  httpCalled : Bool

/-- The error message computed in the HTTPError branch of _make_request
(src/api_client.py lines 75-83): the message field of a JSON object body
when there is one, otherwise the default text with the status code. -/
def httpErrorMessage (status : Nat) (body : Body) : JVal :=
  match body.json with
  | some (JVal.obj fs) =>
    match jget fs "message" with
    | some v => v
    | none => JVal.str ("HTTP Error: " ++ toString status)
  | _ => JVal.str ("HTTP Error: " ++ toString status)

/-- The body of the try block of _make_request after method dispatch
(src/api_client.py lines 64-98): raise_for_status turns a status of 400 or
above into the HTTPError branch; a 2xx body is returned as its parsed JSON,
or as a raw-text success dict when it does not parse; the caught transport
exceptions each produce their tagged error dict. -/
def requestCore (t : Transport) : JVal :=
  match t with
  | Transport.response status body =>
    if 400 ≤ status then
      JVal.obj [("error", httpErrorMessage status body),
                ("success", JVal.bool false),
                ("status_code", JVal.int (Int.ofNat status))]
    else
      match body.json with
      | some v => v
      | none => JVal.obj [("data", JVal.str body.text), ("success", JVal.bool true)]
  | Transport.connectionError =>
    JVal.obj [("error", JVal.str "Connection Error: Unable to connect to API"),
              ("success", JVal.bool false)]
  | Transport.timeout =>
    JVal.obj [("error", JVal.str "Timeout Error: Request took too long"),
              ("success", JVal.bool false)]
  | Transport.requestError m =>
    JVal.obj [("error", JVal.str ("Request Error: " ++ m)),
              ("success", JVal.bool false)]

/-- AmeliaAPIClient._make_request (src/api_client.py lines 35-98): dispatch
on the upper-cased method; an unsupported method returns an error dict with
no HTTP call; a supported method issues the call and normalizes its
outcome with requestCore. -/
def makeRequest (method : String) (t : Transport) : ReqOutcome :=
  if supportedMethods.contains (pyUpper method) then
    ⟨requestCore t, true⟩
  else
    ⟨JVal.obj [("error", JVal.str ("Unsupported HTTP method: " ++ method)),
               ("success", JVal.bool false)], false⟩

/-- C10: for every method string whose upper-casing is none of GET, POST,
PUT, DELETE, _make_request performs no HTTP call and returns the tagged
error dict with message "Unsupported HTTP method: " followed by the method
as given, and success false. -/
theorem c10_unsupported_method (method : String) (t : Transport)
    (h : supportedMethods.contains (pyUpper method) = false) :
    makeRequest method t =
      ⟨JVal.obj [("error", JVal.str ("Unsupported HTTP method: " ++ method)),
                 ("success", JVal.bool false)], false⟩ := by
  unfold makeRequest
  rw [h]
  simp

/-- Witness for C10 at the concrete method "patch". -/
theorem c10_witness :
    makeRequest "patch" Transport.timeout =
      ⟨JVal.obj [("error", JVal.str "Unsupported HTTP method: patch"),
                 ("success", JVal.bool false)], false⟩ :=
  c10_unsupported_method "patch" Transport.timeout (by decide)

/-- A supported method issues the HTTP call and normalizes its outcome. -/
theorem makeRequest_supported (method : String) (t : Transport)
    (hm : supportedMethods.contains (pyUpper method) = true) :
    makeRequest method t = ⟨requestCore t, true⟩ := by
  unfold makeRequest
  rw [hm]
  simp

/-- C8: _make_request never raises past its boundary; every transport,
timeout, HTTP or other request error becomes a tagged result dict with
success false; for a non-2xx response whose JSON body carries a string
message field, the failure carries that message and the HTTP status code;
concretely an HTTP 404 with JSON body message "Not found" yields the
failure dict with status_code 404 and error "Not found". -/
theorem c8_never_raises (method : String)
    (hm : supportedMethods.contains (pyUpper method) = true) :
    (∀ status body fs m, 400 ≤ status → body.json = some (JVal.obj fs) →
      jget fs "message" = some (JVal.str m) →
      (makeRequest method (Transport.response status body)).result =
        JVal.obj [("error", JVal.str m),
                  ("success", JVal.bool false),
                  ("status_code", JVal.int (Int.ofNat status))]) ∧
    (∀ status body, 400 ≤ status →
      (makeRequest method (Transport.response status body)).result =
        JVal.obj [("error", httpErrorMessage status body),
                  ("success", JVal.bool false),
                  ("status_code", JVal.int (Int.ofNat status))]) ∧
    (∀ m, (makeRequest method (Transport.requestError m)).result =
      JVal.obj [("error", JVal.str ("Request Error: " ++ m)),
                ("success", JVal.bool false)]) ∧
    ((makeRequest method (Transport.response 404
        ⟨"\x7b\"message\":\"Not found\"\x7d",
         some (JVal.obj [("message", JVal.str "Not found")])⟩)).result =
      JVal.obj [("error", JVal.str "Not found"),
                ("success", JVal.bool false),
                ("status_code", JVal.int 404)]) := by
  refine ⟨?_, ?_, ?_, ?_⟩
  · intro status body fs m hs hb hmsg
    rw [makeRequest_supported method _ hm]
    simp [requestCore, if_pos hs, httpErrorMessage, hb, hmsg]
  · intro status body hs
    rw [makeRequest_supported method _ hm]
    simp [requestCore, if_pos hs]
  · intro m
    rw [makeRequest_supported method _ hm]
    rfl
  · rw [makeRequest_supported method _ hm]
    rfl

/-- Witness for C8 at the concrete method GET and the 404 response. -/
theorem c8_witness :
    (makeRequest "GET" (Transport.response 404
        ⟨"\x7b\"message\":\"Not found\"\x7d",
         some (JVal.obj [("message", JVal.str "Not found")])⟩)).result =
      JVal.obj [("error", JVal.str "Not found"),
                ("success", JVal.bool false),
                ("status_code", JVal.int 404)] :=
  (c8_never_raises "GET" (by decide)).2.2.2

/-- C1 counterexample: a 2xx response whose body does not parse as JSON is
returned by _make_request as a success value (the raw text under the data
key, with success true and no error key), not as a failure value, so the
claim that every JSON-parse failure yields a tagged failure value is false
at this input. -/
theorem c1_counterexample :
    (makeRequest "GET" (Transport.response 200 ⟨"hello", none⟩)).result =
      JVal.obj [("data", JVal.str "hello"), ("success", JVal.bool true)] ∧
    jget [("data", JVal.str "hello"), ("success", JVal.bool true)] "error" = none ∧
    jget [("data", JVal.str "hello"), ("success", JVal.bool true)] "success" =
      some (JVal.bool true) :=
  ⟨rfl, rfl, rfl⟩

/-- C1 (amended): for every supported method, a non-2xx status yields a
tagged failure dict carrying a message and the HTTP status code; transport
and timeout errors yield tagged failure dicts carrying a human-readable
message and no status_code key (so they are reported distinctly from HTTP
errors); but a 2xx response whose body does not parse as JSON yields a
success dict holding the raw text with success true, not a failure. -/
theorem c1_failure_classification (method : String)
    (hm : supportedMethods.contains (pyUpper method) = true) :
    (∀ status body, 400 ≤ status →
      (makeRequest method (Transport.response status body)).result =
        JVal.obj [("error", httpErrorMessage status body),
                  ("success", JVal.bool false),
                  ("status_code", JVal.int (Int.ofNat status))]) ∧
    ((makeRequest method Transport.connectionError).result =
      JVal.obj [("error", JVal.str "Connection Error: Unable to connect to API"),
                ("success", JVal.bool false)]) ∧
    ((makeRequest method Transport.timeout).result =
      JVal.obj [("error", JVal.str "Timeout Error: Request took too long"),
                ("success", JVal.bool false)]) ∧
    (∀ status text, status < 400 →
      (makeRequest method (Transport.response status ⟨text, none⟩)).result =
        JVal.obj [("data", JVal.str text), ("success", JVal.bool true)]) := by
  refine ⟨?_, ?_, ?_, ?_⟩
  · intro status body hs
    rw [makeRequest_supported method _ hm]
    simp [requestCore, if_pos hs]
  · rw [makeRequest_supported method _ hm]
    rfl
  · rw [makeRequest_supported method _ hm]
    rfl
  · intro status text hs
    rw [makeRequest_supported method _ hm]
    simp [requestCore, Nat.not_le.mpr hs]

/-- Witness for C1 (amended) at the method GET and a 500 response. -/
theorem c1_witness :
    (makeRequest "GET" (Transport.response 500 ⟨"oops", none⟩)).result =
      JVal.obj [("error", httpErrorMessage 500 ⟨"oops", none⟩),
                ("success", JVal.bool false),
                ("status_code", JVal.int 500)] :=
  (c1_failure_classification "GET" (by decide)).1 500 ⟨"oops", none⟩ (by decide)

/-- A CSV cell as pandas sees it: none models a NaN (empty) cell. -/
abbrev Cell := Option String

/-- A parsed CSV row: association list from column name to cell. An entry
whose cell is none models a present column holding NaN; a column with no
entry models a column absent from the DataFrame. -/
abbrev Row := List (String × Cell)

/-- Python row.get(col): none when the column is absent. -/
def rowFind (r : Row) (c : String) : Option Cell :=
  (r.find? (fun p => p.1 == c)).map (fun p => p.2)

/-- A naive date-time value, enough for the formats this repository uses. -/
structure PyDatetime where
  year : Nat
  month : Nat
  day : Nat
  hour : Nat
  minute : Nat
  second : Nat
deriving Repr, DecidableEq

/-- Split a character list at every occurrence of a separator. -/
def splitOnChar (sep : Char) : List Char → List (List Char)
  | [] => [[]]
  | c :: cs =>
    let r := splitOnChar sep cs
    if c == sep then [] :: r
    else
      match r with
      | [] => [[c]]
      | g :: gs => (c :: g) :: gs

/-- Read a non-empty all-digit character list as a number. -/
def digitsToNatAux : List Char → Nat → Option Nat
  | [], acc => some acc
  | c :: cs, acc =>
    if c.isDigit then digitsToNatAux cs (acc * 10 + (c.toNat - 48)) else none

/-- Read a non-empty all-digit character list as a number. -/
def digitsToNat : List Char → Option Nat
  | [] => none
  | l => digitsToNatAux l 0

/-- Modelled from the library: the date part of pandas.to_datetime,
restricted to the ISO-like YYYY-MM-DD form used by this repository. -/
def parseDate (l : List Char) : Option (Nat × Nat × Nat) :=
  match splitOnChar '-' l with
  | [y, m, d] =>
    match digitsToNat y, digitsToNat m, digitsToNat d with
    | some yn, some mn, some dn =>
      if 1 ≤ mn ∧ mn ≤ 12 ∧ 1 ≤ dn ∧ dn ≤ 31 then some (yn, mn, dn) else none
    | _, _, _ => none
  | _ => none

/-- Modelled from the library: the time part of pandas.to_datetime,
restricted to HH:MM and HH:MM:SS forms. -/
def parseTime (l : List Char) : Option (Nat × Nat × Nat) :=
  match splitOnChar ':' l with
  | [h, m] =>
    match digitsToNat h, digitsToNat m with
    | some hn, some mn => if hn ≤ 23 ∧ mn ≤ 59 then some (hn, mn, 0) else none
    | _, _ => none
  | [h, m, sec] =>
    match digitsToNat h, digitsToNat m, digitsToNat sec with
    | some hn, some mn, some sn =>
      if hn ≤ 23 ∧ mn ≤ 59 ∧ sn ≤ 59 then some (hn, mn, sn) else none
    | _, _, _ => none
  | _ => none

/-- Modelled from the library: pandas.to_datetime on a text cell,
restricted to the ISO-like forms used by this repository; none models a
raised parse error. -/
def parseDatetime (s : String) : Option PyDatetime :=
  match splitOnChar ' ' s.data with
  | [d] => (parseDate d).map (fun p => ⟨p.1, p.2.1, p.2.2, 0, 0, 0⟩)
  | [d, t] =>
    match parseDate d, parseTime t with
    | some p, some q => some ⟨p.1, p.2.1, p.2.2, q.1, q.2.1, q.2.2⟩
    | _, _ => none
  | _ => none

/-- Zero-pad to two digits. -/
def pad2 (n : Nat) : String := if n < 10 then "0" ++ toString n else toString n

/-- Zero-pad to four digits. -/
def pad4 (n : Nat) : String :=
  if n < 10 then "000" ++ toString n
  else if n < 100 then "00" ++ toString n
  else if n < 1000 then "0" ++ toString n
  else toString n

/-- Modelled from the library: datetime.strftime with format
%Y-%m-%d %H:%M as used at src/csv_handler.py line 181. -/
def formatYmdHm (d : PyDatetime) : String :=
  pad4 d.year ++ "-" ++ pad2 d.month ++ "-" ++ pad2 d.day ++ " " ++
    pad2 d.hour ++ ":" ++ pad2 d.minute

/-- Modelled from the library: Python int() on a CSV cell text (an optional
sign followed by digits); none models a raised ValueError. -/
def pyInt (s : String) : Option Int :=
  match s.data with
  | '-' :: rest => (digitsToNat rest).map (fun n => -(Int.ofNat n))
  | l => (digitsToNat l).map Int.ofNat

/-- Modelled from the library: Python str.isdigit — true on a non-empty
all-digit string. -/
def pyIsdigit (s : String) : Bool :=
  !s.data.isEmpty && s.data.all (fun c => c.isDigit)

/-- Modelled from the library: str.replace removing every dot, as in the
validate numeric check. -/
def removeDots (s : String) : String :=
  String.mk (s.data.filter (fun c => !(c == '.')))

/-- Modelled from the library: json.loads restricted to the scalar JSON
literals exercised by this repository; anything else is out of model and
treated as a decode failure (none). -/
def jsonLoads (s : String) : Option JVal :=
  if s == "null" then some JVal.null
  else if s == "true" then some (JVal.bool true)
  else if s == "false" then some (JVal.bool false)
  else (pyInt s).map JVal.int

/-- The required appointment CSV columns (src/csv_handler.py line 142). -/
def requiredColumns : List String :=
  ["booking_start", "service_id", "provider_id", "customer_id"]

/-- A parsed CSV file: its column list and its data rows. -/
structure Table where
  columns : List String
  rows : List Row

/-- The booking_start check of validate_appointment_csv for one row
(src/csv_handler.py lines 156-160): pandas raises only on a present
unparseable text cell (a NaN cell parses to NaT); the bare except also
catches a lookup failure. -/
def bookingStartError (rowNum : Nat) (r : Row) : List String :=
  match rowFind r "booking_start" with
  | some (some s) =>
    match parseDatetime s with
    | some _ => []
    | none => ["Row " ++ toString rowNum ++ ": Invalid date format in booking_start"]
  | some none => []
  | none => ["Row " ++ toString rowNum ++ ": Invalid date format in booking_start"]

/-- The numeric check of validate_appointment_csv for one id column
(src/csv_handler.py lines 162-165): a NaN or absent cell is skipped by the
pd.notna guard; a present cell must be all digits after removing dots. -/
def idError (rowNum : Nat) (r : Row) (c : String) : List String :=
  match rowFind r c with
  | some (some s) =>
    if pyIsdigit (removeDots s) then []
    else ["Row " ++ toString rowNum ++ ": " ++ c ++ " must be numeric"]
  | _ => []

/-- All error messages validate_appointment_csv produces for one row, in
source order: the date check, then the three id checks. -/
def rowErrors (rowNum : Nat) (r : Row) : List String :=
  bookingStartError rowNum r ++ idError rowNum r "service_id" ++
    idError rowNum r "provider_id" ++ idError rowNum r "customer_id"

/-- The per-row validation loop (src/csv_handler.py lines 153-165): row i
of the data is reported as row i + 2, counting the header line and
1-basing. -/
def allRowErrors : Nat → List Row → List String
  | _, [] => []
  | i, r :: rs => rowErrors (i + 2) r ++ allRowErrors (i + 1) rs

/-- CSVHandler.validate_appointment_csv (src/csv_handler.py lines 130-167):
a missing required column short-circuits with a single error; otherwise the
per-row errors are accumulated and validity is their emptiness. -/
def validate_appointment_csv (t : Table) : Bool × List String :=
  if (requiredColumns.filter (fun c => !(t.columns.contains c))).isEmpty then
    ((allRowErrors 0 t.rows).isEmpty, allRowErrors 0 t.rows)
  else
    (false, ["Missing required columns: " ++ String.intercalate ", "
      (requiredColumns.filter (fun c => !(t.columns.contains c)))])

/-- One Booking sub-record of the request payload built by
csv_to_appointment_data (src/csv_handler.py lines 191-199). -/
structure BookingPayload where
  customerId : Int
  persons : Int
  status : String
  extras : List JVal
  duration : Option Int
  customFields : Option JVal

/-- The appointment payload built by csv_to_appointment_data
(src/csv_handler.py lines 184-200); a field holding none models a Python
None value (or, for customFields, an omitted key). -/
structure AppointmentPayload where
  bookingStart : String
  serviceId : Int
  providerId : Int
  locationId : Option Int
  notifyParticipants : Int
  internalNotes : String
  bookings : List BookingPayload

/-- str(row.get(col, default)): the default applies only when the column is
absent; a NaN cell stringifies to "nan". -/
def pyStrGet (r : Row) (c : String) (dflt : String) : String :=
  match rowFind r c with
  | none => dflt
  | some none => "nan"
  | some (some s) => s

/-- int(row.get(col, d)): the integer default applies when the column is
absent; int() on a NaN cell raises (none); otherwise the cell converts. -/
def pyIntGet (r : Row) (c : String) (d : Int) : Option Int :=
  match rowFind r c with
  | none => some d
  | some none => none
  | some (some s) => pyInt s

/-- int(row[col]) for a required column: an absent column raises KeyError
and a NaN cell makes int() raise, both modelled as none. -/
def pyIntReq (r : Row) (c : String) : Option Int :=
  match rowFind r c with
  | some (some s) => pyInt s
  | _ => none

/-- The pattern int(row.get(col, 0)) if pd.notna(row.get(col)) else None
used for location_id and duration (src/csv_handler.py lines 188 and 197):
an absent or NaN cell gives Python None; a present cell converts with
int(), whose failure propagates as an exception (outer none). -/
def optIntField (r : Row) (c : String) : Option (Option Int) :=
  match rowFind r c with
  | some (some s) => (pyInt s).map some
  | _ => some none

/-- The custom_fields handling (src/csv_handler.py lines 203-208): a
present text cell is JSON-decoded, and a decode failure is swallowed,
leaving the key absent (none). -/
def customFieldsOf (r : Row) : Option JVal :=
  match rowFind r "custom_fields" with
  | some (some s) => jsonLoads s
  | _ => none

/-- CSVHandler.csv_to_appointment_data (src/csv_handler.py lines 169-210):
none models an exception escaping the function (unparseable booking_start,
NaT formatting, or a failing int() conversion). -/
def csv_to_appointment_data (r : Row) : Option AppointmentPayload := do
  let bsCell ← rowFind r "booking_start"
  let bsStr ← bsCell
  let dt ← parseDatetime bsStr
  let sid ← pyIntReq r "service_id"
  let pid ← pyIntReq r "provider_id"
  let locId ← optIntField r "location_id"
  let notify ← pyIntGet r "notify_participants" 1
  let cid ← pyIntReq r "customer_id"
  let persons ← pyIntGet r "persons" 1
  let dur ← optIntField r "duration"
  some
    { bookingStart := formatYmdHm dt
      serviceId := sid
      providerId := pid
      locationId := locId
      notifyParticipants := notify
      internalNotes := pyStrGet r "internal_notes" ""
      bookings := [{ customerId := cid
                     persons := persons
                     status := pyStrGet r "status" "approved"
                     extras := []
                     duration := dur
                     customFields := customFieldsOf r }] }

/-- The date cell of a row passes the validate check: a present text cell
must parse; a NaN cell parses to NaT and passes; a lookup failure is
caught as an error. -/
def bookingStartOk (r : Row) : Bool :=
  match rowFind r "booking_start" with
  | some (some s) => (parseDatetime s).isSome
  | some none => true
  | none => false

/-- An id cell of a row passes the validate check: a present text cell must
be numeric after removing dots; a NaN or absent cell is skipped. -/
def idOk (r : Row) (c : String) : Bool :=
  match rowFind r c with
  | some (some s) => pyIsdigit (removeDots s)
  | _ => true

/-- A row passes every per-row validate check. -/
def rowOk (r : Row) : Bool :=
  bookingStartOk r && idOk r "service_id" && idOk r "provider_id" &&
    idOk r "customer_id"

/-- How many error messages validate produces for one row. -/
def numRowErrors (r : Row) : Nat :=
  (if bookingStartOk r then 0 else 1) + (if idOk r "service_id" then 0 else 1) +
    (if idOk r "provider_id" then 0 else 1) + (if idOk r "customer_id" then 0 else 1)

theorem bookingStartError_eq (n : Nat) (r : Row) :
    bookingStartError n r =
      if bookingStartOk r then []
      else ["Row " ++ toString n ++ ": Invalid date format in booking_start"] := by
  unfold bookingStartError bookingStartOk
  cases hf : rowFind r "booking_start" with
  | none => simp
  | some cell =>
    cases cell with
    | none => simp
    | some s =>
      cases hp : parseDatetime s with
      | none => simp [hp]
      | some d => simp [hp]

theorem idError_eq (n : Nat) (r : Row) (c : String) :
    idError n r c =
      if idOk r c then []
      else ["Row " ++ toString n ++ ": " ++ c ++ " must be numeric"] := by
  unfold idError idOk
  cases hf : rowFind r c with
  | none => simp
  | some cell =>
    cases cell with
    | none => simp
    | some s => simp

theorem rowErrors_length (n : Nat) (r : Row) :
    (rowErrors n r).length = numRowErrors r := by
  unfold rowErrors numRowErrors
  rw [bookingStartError_eq, idError_eq, idError_eq, idError_eq]
  split_ifs <;> simp

theorem rowErrors_eq_nil (n : Nat) (r : Row) :
    rowErrors n r = [] ↔ rowOk r = true := by
  unfold rowErrors rowOk
  rw [bookingStartError_eq, idError_eq, idError_eq, idError_eq]
  split_ifs <;> simp_all

theorem allRowErrors_length (rs : List Row) :
    ∀ i, (allRowErrors i rs).length = (rs.map numRowErrors).sum := by
  induction rs with
  | nil => intro i; rfl
  | cons r rs ih => intro i; simp [allRowErrors, rowErrors_length, ih]

theorem allRowErrors_eq_nil (rs : List Row) :
    ∀ i, (allRowErrors i rs = [] ↔ ∀ r ∈ rs, rowOk r = true) := by
  induction rs with
  | nil => intro i; simp [allRowErrors]
  | cons r rs ih => intro i; simp [allRowErrors, rowErrors_eq_nil, ih]

/-- With every required column present, the missing-column filter is empty. -/
theorem requiredFilter_nil (t : Table)
    (h : ∀ c ∈ requiredColumns, t.columns.contains c = true) :
    requiredColumns.filter (fun c => !(t.columns.contains c)) = [] := by
  have m1 : "booking_start" ∈ t.columns := by
    simpa using h "booking_start" (by simp [requiredColumns])
  have m2 : "service_id" ∈ t.columns := by
    simpa using h "service_id" (by simp [requiredColumns])
  have m3 : "provider_id" ∈ t.columns := by
    simpa using h "provider_id" (by simp [requiredColumns])
  have m4 : "customer_id" ∈ t.columns := by
    simpa using h "customer_id" (by simp [requiredColumns])
  simp [requiredColumns, List.filter_cons, m1, m2, m3, m4]

/-- C7: for every input table missing at least one required column,
validate returns isValid false with a single error naming every missing
column, and its result does not depend on the data rows at all. -/
theorem c7_missing_columns (t : Table)
    (h : requiredColumns.filter (fun c => !(t.columns.contains c)) ≠ []) :
    (validate_appointment_csv t =
      (false, ["Missing required columns: " ++ String.intercalate ", "
        (requiredColumns.filter (fun c => !(t.columns.contains c)))])) ∧
    ∀ rs, validate_appointment_csv ⟨t.columns, rs⟩ = validate_appointment_csv t := by
  have hne : (requiredColumns.filter (fun c => !(t.columns.contains c))).isEmpty = false := by
    cases hl : requiredColumns.filter (fun c => !(t.columns.contains c)) with
    | nil => exact absurd hl h
    | cons a l => rfl
  constructor
  · unfold validate_appointment_csv
    rw [hne]
    rfl
  · intro rs
    unfold validate_appointment_csv
    dsimp only
    rw [hne]
    rfl

/-- Witness for C7 at a table whose header lacks two required columns. -/
theorem c7_witness :
    validate_appointment_csv
      ⟨["booking_start", "service_id"], [[("booking_start", some "x")]]⟩ =
      (false, ["Missing required columns: " ++ String.intercalate ", "
        (requiredColumns.filter (fun c =>
          !((["booking_start", "service_id"] : List String).contains c)))]) :=
  (c7_missing_columns ⟨["booking_start", "service_id"],
    [[("booking_start", some "x")]]⟩ (by decide)).1

/-- C3 counterexample: with all four required columns present, a row whose
service_id cell is empty (NaN) is accepted with isValid true and no error,
although the claim requires each id field to be present and to parse as a
non-negative integer. -/
theorem c3_counterexample :
    validate_appointment_csv
      ⟨requiredColumns,
       [[("booking_start", some "2024-12-15 10:00"), ("service_id", none),
         ("provider_id", some "1"), ("customer_id", some "10")]]⟩ =
      (true, []) := by decide

/-- C3 (amended): whenever all four required columns are present, validate
checks every row; a present booking_start cell must parse as a date-time
and each present id cell must be digits after dot removal, while a NaN
cell is skipped rather than required; each failing field of a row yields
one error, errors accumulate across all rows, and isValid is true iff no
row fails; concretely the single data row not-a-date,1,1,10 yields isValid
false with exactly one error citing row 2 and booking_start. -/
theorem c3_row_validation (t : Table)
    (h : ∀ c ∈ requiredColumns, t.columns.contains c = true) :
    ((validate_appointment_csv t).1 = t.rows.all rowOk) ∧
    ((validate_appointment_csv t).2.length = (t.rows.map numRowErrors).sum) ∧
    (validate_appointment_csv
      ⟨requiredColumns,
       [[("booking_start", some "not-a-date"), ("service_id", some "1"),
         ("provider_id", some "1"), ("customer_id", some "10")]]⟩ =
      (false, ["Row 2: Invalid date format in booking_start"])) := by
  have hfil := requiredFilter_nil t h
  refine ⟨?_, ?_, by decide⟩
  · unfold validate_appointment_csv
    rw [hfil]
    simp only [List.isEmpty_nil, if_true]
    refine Bool.coe_iff_coe.mp ?_
    rw [List.isEmpty_iff, List.all_eq_true]
    exact allRowErrors_eq_nil t.rows 0
  · unfold validate_appointment_csv
    rw [hfil]
    simp only [List.isEmpty_nil, if_true]
    exact allRowErrors_length t.rows 0

/-- Witness for C3 (amended) at a table with the required header. -/
theorem c3_witness :
    validate_appointment_csv
      ⟨requiredColumns,
       [[("booking_start", some "not-a-date"), ("service_id", some "1"),
         ("provider_id", some "1"), ("customer_id", some "10")]]⟩ =
      (false, ["Row 2: Invalid date format in booking_start"]) :=
  (c3_row_validation ⟨requiredColumns, []⟩ (by decide)).2.2

/-- C2 counterexample: with the four required fields parseable and a
location_id cell holding 0, the transform includes locationId 0 in the
payload, although the claim says location_id is included only if present
and greater than 0. -/
theorem c2_counterexample :
    (csv_to_appointment_data
      [("booking_start", some "2024-12-15 10:00"), ("service_id", some "1"),
       ("provider_id", some "1"), ("customer_id", some "10"),
       ("location_id", some "0")]).map (fun p => p.locationId) =
      some (some 0) := by rfl

/-- C2 (amended): for every row whose four required fields are present and
parseable and whose optional conversions succeed, the transform normalizes
booking_start to YYYY-MM-DD HH:MM, copies the three ids, applies the
defaults persons 1, status "approved", notifyParticipants 1 when those
columns are absent, sets locationId (and duration) to the integer value of
the cell whenever the cell is non-null — with no positivity check — and to
None otherwise, and includes custom_fields only when the cell decodes;
concretely the row 2024-12-15 10:00,1,1,10 yields bookingStart
"2024-12-15 10:00", serviceId 1, providerId 1 and exactly one booking with
customerId 10, persons 1, status "approved". -/
theorem c2_transform (r : Row) (bs : String) (dt : PyDatetime)
    (sid pid cid notify persons : Int) (loc dur : Option Int)
    (hbs : rowFind r "booking_start" = some (some bs))
    (hdt : parseDatetime bs = some dt)
    (hsid : pyIntReq r "service_id" = some sid)
    (hpid : pyIntReq r "provider_id" = some pid)
    (hcid : pyIntReq r "customer_id" = some cid)
    (hloc : optIntField r "location_id" = some loc)
    (hnotify : pyIntGet r "notify_participants" 1 = some notify)
    (hpersons : pyIntGet r "persons" 1 = some persons)
    (hdur : optIntField r "duration" = some dur) :
    (csv_to_appointment_data r =
      some { bookingStart := formatYmdHm dt
             serviceId := sid
             providerId := pid
             locationId := loc
             notifyParticipants := notify
             internalNotes := pyStrGet r "internal_notes" ""
             bookings := [{ customerId := cid
                            persons := persons
                            status := pyStrGet r "status" "approved"
                            extras := []
                            duration := dur
                            customFields := customFieldsOf r }] }) ∧
    (csv_to_appointment_data
      [("booking_start", some "2024-12-15 10:00"), ("service_id", some "1"),
       ("provider_id", some "1"), ("customer_id", some "10")] =
      some { bookingStart := "2024-12-15 10:00"
             serviceId := 1
             providerId := 1
             locationId := none
             notifyParticipants := 1
             internalNotes := ""
             bookings := [{ customerId := 10
                            persons := 1
                            status := "approved"
                            extras := []
                            duration := none
                            customFields := none }] }) := by
  constructor
  · unfold csv_to_appointment_data
    rw [hbs]
    simp [hdt, hsid, hpid, hcid, hloc, hnotify, hpersons, hdur]
  · rfl

/-- Witness for C2 (amended) at the concrete required-fields-only row. -/
theorem c2_witness :
    csv_to_appointment_data
      [("booking_start", some "2024-12-15 10:00"), ("service_id", some "1"),
       ("provider_id", some "1"), ("customer_id", some "10")] =
      some { bookingStart := "2024-12-15 10:00"
             serviceId := 1
             providerId := 1
             locationId := none
             notifyParticipants := 1
             internalNotes := ""
             bookings := [{ customerId := 10
                            persons := 1
                            status := "approved"
                            extras := []
                            duration := none
                            customFields := none }] } :=
  (c2_transform
    [("booking_start", some "2024-12-15 10:00"), ("service_id", some "1"),
     ("provider_id", some "1"), ("customer_id", some "10")]
    "2024-12-15 10:00" ⟨2024, 12, 15, 10, 0, 0⟩ 1 1 10 1 1 none none
    rfl rfl rfl rfl rfl rfl rfl rfl rfl).2

/-- Classification of one create_appointment result by the import loop
(src/app.py lines 858-882): a dict with an error key, a dict holding
data.appointment (the created appointment id), or anything else. -/
inductive SubmitResult where
  | errorResult (msg : String)
  | created (apptId : Int)
  | unexpected

/-- The import options of the Start Import handler (src/app.py lines
802-829): dry run, skip-errors-and-continue, batch size and the
inter-batch delay; the last two only pace the loop with time.sleep and
never affect its outcomes. -/
structure ImportOptions where
  dryRun : Bool
  skipErrors : Bool
  batchSize : Nat
  interBatchDelay : Nat

/-- The accumulator of the import loop (src/app.py lines 840-844):
success, error and skipped counters, the row numbers recorded in
errors_list and success_list, and how many create_appointment calls were
issued. -/
structure ImportState where
  success : Nat
  error : Nat
  skipped : Nat
  errorsRows : List Nat
  successRows : List Nat
  submits : Nat

/-- The zero-initialised accumulator (src/app.py lines 840-844). -/
def initialImportState : ImportState := ⟨0, 0, 0, [], [], 0⟩

/-- Record an error outcome for a row (src/app.py lines 859-864, 877-882,
892-897). -/
def recordError (st : ImportState) (n : Nat) : ImportState :=
  { st with error := st.error + 1, errorsRows := st.errorsRows ++ [n] }

/-- Record a live success outcome for a row (src/app.py lines 870-875). -/
def recordSuccess (st : ImportState) (n : Nat) : ImportState :=
  { st with success := st.success + 1, successRows := st.successRows ++ [n] }

/-- Record a dry-run success: only the counter moves (src/app.py line 885). -/
def recordDrySuccess (st : ImportState) : ImportState :=
  { st with success := st.success + 1 }

/-- Count one outbound create_appointment call (src/app.py line 856). -/
def bumpSubmits (st : ImportState) : ImportState :=
  { st with submits := st.submits + 1 }

/-- The Start Import loop (src/app.py lines 848-901): rows are processed
in order with 1-based numbering; a transform exception records an error
and halts unless skip_errors; in dry run a transformed row only counts a
success; live mode submits and classifies the result, where an error
result halts unless skip_errors but an unexpected response shape never
halts. -/
def importGo (submit : AppointmentPayload → SubmitResult) (opts : ImportOptions) :
    List Row → Nat → ImportState → ImportState
  | [], _, st => st
  | r :: rs, idx, st =>
    match csv_to_appointment_data r with
    | none =>
      if opts.skipErrors then importGo submit opts rs (idx + 1) (recordError st (idx + 1))
      else recordError st (idx + 1)
    | some payload =>
      if opts.dryRun then importGo submit opts rs (idx + 1) (recordDrySuccess st)
      else
        match submit payload with
        | SubmitResult.errorResult _ =>
          if opts.skipErrors then
            importGo submit opts rs (idx + 1) (recordError (bumpSubmits st) (idx + 1))
          else recordError (bumpSubmits st) (idx + 1)
        | SubmitResult.created _ =>
          importGo submit opts rs (idx + 1) (recordSuccess (bumpSubmits st) (idx + 1))
        | SubmitResult.unexpected =>
          importGo submit opts rs (idx + 1) (recordError (bumpSubmits st) (idx + 1))

/-- The whole Start Import run over the parsed rows. -/
def runImport (submit : AppointmentPayload → SubmitResult) (opts : ImportOptions)
    (rows : List Row) : ImportState :=
  importGo submit opts rows 0 initialImportState

/-- A row is processed as a live success: its transform succeeds and the
submit call returns a created appointment. -/
def liveOk (submit : AppointmentPayload → SubmitResult) (r : Row) : Bool :=
  match csv_to_appointment_data r with
  | some p =>
    match submit p with
    | SubmitResult.created _ => true
    | _ => false
  | none => false

/-- The consecutive row numbers idx+1, ..., idx+n. -/
def rowNums : Nat → Nat → List Nat
  | _, 0 => []
  | idx, n + 1 => (idx + 1) :: rowNums (idx + 1) n


theorem importGo_cons_fail (submit : AppointmentPayload → SubmitResult)
    (opts : ImportOptions) (r : Row) (rs : List Row) (idx : Nat) (st : ImportState)
    (hr : csv_to_appointment_data r = none) :
    importGo submit opts (r :: rs) idx st =
      if opts.skipErrors then importGo submit opts rs (idx + 1) (recordError st (idx + 1))
      else recordError st (idx + 1) := by
  conv_lhs => rw [importGo]
  rw [hr]

theorem importGo_cons_dry (submit : AppointmentPayload → SubmitResult)
    (opts : ImportOptions) (r : Row) (rs : List Row) (idx : Nat) (st : ImportState)
    (p : AppointmentPayload) (hr : csv_to_appointment_data r = some p)
    (hd : opts.dryRun = true) :
    importGo submit opts (r :: rs) idx st =
      importGo submit opts rs (idx + 1) (recordDrySuccess st) := by
  conv_lhs => rw [importGo]
  rw [hr, hd]
  rfl

theorem importGo_cons_live (submit : AppointmentPayload → SubmitResult)
    (opts : ImportOptions) (r : Row) (rs : List Row) (idx : Nat) (st : ImportState)
    (p : AppointmentPayload) (hr : csv_to_appointment_data r = some p)
    (hd : opts.dryRun = false) :
    importGo submit opts (r :: rs) idx st =
      match submit p with
      | SubmitResult.errorResult _ =>
        if opts.skipErrors then
          importGo submit opts rs (idx + 1) (recordError (bumpSubmits st) (idx + 1))
        else recordError (bumpSubmits st) (idx + 1)
      | SubmitResult.created _ =>
        importGo submit opts rs (idx + 1) (recordSuccess (bumpSubmits st) (idx + 1))
      | SubmitResult.unexpected =>
        importGo submit opts rs (idx + 1) (recordError (bumpSubmits st) (idx + 1)) := by
  conv_lhs => rw [importGo]
  rw [hr, hd]
  rfl

theorem importGo_skipped (submit : AppointmentPayload → SubmitResult)
    (opts : ImportOptions) (rs : List Row) :
    ∀ idx st, (importGo submit opts rs idx st).skipped = st.skipped := by
  induction rs with
  | nil => intro idx st; rfl
  | cons r rs ih =>
    intro idx st
    cases hr : csv_to_appointment_data r with
    | none =>
      rw [importGo_cons_fail submit opts r rs idx st hr]
      cases hs : opts.skipErrors <;>
        simp [hs, ih, recordError]
    | some p =>
      cases hd : opts.dryRun with
      | true =>
        rw [importGo_cons_dry submit opts r rs idx st p hr hd]
        simp [ih, recordDrySuccess]
      | false =>
        rw [importGo_cons_live submit opts r rs idx st p hr hd]
        cases hq : submit p with
        | errorResult m =>
          cases hs : opts.skipErrors <;>
            simp [hs, ih, recordError, bumpSubmits]
        | created i => simp [ih, recordSuccess, bumpSubmits]
        | unexpected => simp [ih, recordError, bumpSubmits]

theorem importGo_sum_skip (submit : AppointmentPayload → SubmitResult)
    (opts : ImportOptions) (hs : opts.skipErrors = true) (rs : List Row) :
    ∀ idx st,
      (importGo submit opts rs idx st).success + (importGo submit opts rs idx st).error =
        st.success + st.error + rs.length := by
  induction rs with
  | nil => intro idx st; rfl
  | cons r rs ih =>
    intro idx st
    cases hr : csv_to_appointment_data r with
    | none =>
      rw [importGo_cons_fail submit opts r rs idx st hr]
      simp [hs, ih, recordError]
      omega
    | some p =>
      cases hd : opts.dryRun with
      | true =>
        rw [importGo_cons_dry submit opts r rs idx st p hr hd]
        simp [ih, recordDrySuccess]
        omega
      | false =>
        rw [importGo_cons_live submit opts r rs idx st p hr hd]
        cases hq : submit p with
        | errorResult m =>
          simp [hs, ih, recordError, bumpSubmits]
          omega
        | created i =>
          simp [ih, recordSuccess, bumpSubmits]
          omega
        | unexpected =>
          simp [ih, recordError, bumpSubmits]
          omega

theorem importGo_sum_le (submit : AppointmentPayload → SubmitResult)
    (opts : ImportOptions) (rs : List Row) :
    ∀ idx st,
      (importGo submit opts rs idx st).success + (importGo submit opts rs idx st).error ≤
        st.success + st.error + rs.length := by
  induction rs with
  | nil => intro idx st; simp [importGo]
  | cons r rs ih =>
    intro idx st
    cases hr : csv_to_appointment_data r with
    | none =>
      rw [importGo_cons_fail submit opts r rs idx st hr]
      cases hsk : opts.skipErrors with
      | true =>
        have h1 := ih (idx + 1) (recordError st (idx + 1))
        simp only [recordError] at h1 ⊢
        simp at h1 ⊢
        omega
      | false =>
        simp [hsk, recordError]
        omega
    | some p =>
      cases hd : opts.dryRun with
      | true =>
        rw [importGo_cons_dry submit opts r rs idx st p hr hd]
        have h1 := ih (idx + 1) (recordDrySuccess st)
        simp only [recordDrySuccess] at h1 ⊢
        simp at h1 ⊢
        omega
      | false =>
        rw [importGo_cons_live submit opts r rs idx st p hr hd]
        cases hq : submit p with
        | errorResult m =>
          cases hsk : opts.skipErrors with
          | true =>
            have h1 := ih (idx + 1) (recordError (bumpSubmits st) (idx + 1))
            simp only [recordError, bumpSubmits] at h1 ⊢
            simp [hsk] at h1 ⊢
            omega
          | false =>
            simp [hsk, recordError, bumpSubmits]
            omega
        | created i =>
          have h1 := ih (idx + 1) (recordSuccess (bumpSubmits st) (idx + 1))
          simp only [recordSuccess, bumpSubmits] at h1 ⊢
          simp at h1 ⊢
          omega
        | unexpected =>
          have h1 := ih (idx + 1) (recordError (bumpSubmits st) (idx + 1))
          simp only [recordError, bumpSubmits] at h1 ⊢
          simp at h1 ⊢
          omega

theorem importGo_dry_submits (submit : AppointmentPayload → SubmitResult)
    (opts : ImportOptions) (hd : opts.dryRun = true) (rs : List Row) :
    ∀ idx st, (importGo submit opts rs idx st).submits = st.submits := by
  induction rs with
  | nil => intro idx st; rfl
  | cons r rs ih =>
    intro idx st
    cases hr : csv_to_appointment_data r with
    | none =>
      rw [importGo_cons_fail submit opts r rs idx st hr]
      cases hs : opts.skipErrors <;>
        simp [hs, ih, recordError]
    | some p =>
      rw [importGo_cons_dry submit opts r rs idx st p hr hd]
      simp [ih, recordDrySuccess]

theorem importGo_dry_allvalid (submit : AppointmentPayload → SubmitResult)
    (opts : ImportOptions) (hd : opts.dryRun = true) :
    ∀ rs : List Row, (∀ r ∈ rs, (csv_to_appointment_data r).isSome) →
    ∀ idx st, importGo submit opts rs idx st =
      { st with success := st.success + rs.length } := by
  intro rs
  induction rs with
  | nil => intro _ idx st; simp [importGo]
  | cons r rs ih =>
    intro hv idx st
    obtain ⟨p, hp⟩ := Option.isSome_iff_exists.mp (hv r (List.mem_cons_self r rs))
    rw [importGo_cons_dry submit opts r rs idx st p hp hd]
    rw [ih (fun x hx => hv x (List.mem_cons_of_mem r hx)) (idx + 1) (recordDrySuccess st)]
    simp [recordDrySuccess]
    omega

theorem importGo_ok_append (submit : AppointmentPayload → SubmitResult)
    (opts : ImportOptions) (hd : opts.dryRun = false) :
    ∀ as : List Row, ∀ bs : List Row, (∀ r ∈ as, liveOk submit r = true) →
    ∀ idx st, importGo submit opts (as ++ bs) idx st =
      importGo submit opts bs (idx + as.length)
        ⟨st.success + as.length, st.error, st.skipped, st.errorsRows,
         st.successRows ++ rowNums idx as.length, st.submits + as.length⟩ := by
  intro as
  induction as with
  | nil =>
    intro bs h idx st
    simp [rowNums]
  | cons a as ih =>
    intro bs h idx st
    have ha := h a (List.mem_cons_self a as)
    cases htr : csv_to_appointment_data a with
    | none => simp [liveOk, htr] at ha
    | some p =>
      cases hq : submit p with
      | errorResult m => simp [liveOk, htr, hq] at ha
      | unexpected => simp [liveOk, htr, hq] at ha
      | created i =>
        rw [List.cons_append,
            importGo_cons_live submit opts a (as ++ bs) idx st p htr hd]
        simp only [hq]
        rw [ih bs (fun r hr => h r (List.mem_cons_of_mem a hr)) (idx + 1)
            (recordSuccess (bumpSubmits st) (idx + 1))]
        simp only [recordSuccess, bumpSubmits, rowNums, List.length_cons]
        congr 1
        · omega
        · congr 1
          · omega
          · simp [List.append_assoc]
          · omega

theorem importGo_ok_all (submit : AppointmentPayload → SubmitResult)
    (opts : ImportOptions) (hd : opts.dryRun = false) (as : List Row)
    (h : ∀ r ∈ as, liveOk submit r = true) (idx : Nat) (st : ImportState) :
    importGo submit opts as idx st =
      ⟨st.success + as.length, st.error, st.skipped, st.errorsRows,
       st.successRows ++ rowNums idx as.length, st.submits + as.length⟩ := by
  have h1 := importGo_ok_append submit opts hd as [] h idx st
  rw [List.append_nil] at h1
  rw [h1]
  rfl

/-- A data row whose transform raises: an unparseable booking_start. -/
def badRow : Row :=
  [("booking_start", some "not-a-date"), ("service_id", some "1"),
   ("provider_id", some "1"), ("customer_id", some "10")]

/-- A data row that validates and transforms cleanly. -/
def goodRow : Row :=
  [("booking_start", some "2024-12-15 10:00"), ("service_id", some "1"),
   ("provider_id", some "1"), ("customer_id", some "10")]

/-- C4 counterexample: with skipErrorsAndContinue false, a failing first
row halts a two-row import after one outcome, so success + error +
skipped is 1 while the input has 2 rows — the counts do not sum to the
total row count. -/
theorem c4_counterexample :
    (runImport (fun _ => SubmitResult.created 1) ⟨false, false, 10, 1⟩
        [badRow, goodRow]).success +
      (runImport (fun _ => SubmitResult.created 1) ⟨false, false, 10, 1⟩
        [badRow, goodRow]).error +
      (runImport (fun _ => SubmitResult.created 1) ⟨false, false, 10, 1⟩
        [badRow, goodRow]).skipped = 1 ∧
    ([badRow, goodRow] : List Row).length = 2 :=
  ⟨rfl, rfl⟩

/-- C4 (amended): the skipped count is never incremented, and the success
and error counts sum to the total row count whenever skipErrorsAndContinue
is true, for every dryRun, batchSize and interBatchDelay setting; with
skipErrorsAndContinue false the loop may halt early and the sum then only
covers the rows processed up to the failing row, never exceeding the
total. -/
theorem c4_report_counts (submit : AppointmentPayload → SubmitResult)
    (opts : ImportOptions) (rows : List Row) :
    ((runImport submit opts rows).skipped = 0) ∧
    (opts.skipErrors = true →
      (runImport submit opts rows).success + (runImport submit opts rows).error =
        rows.length) ∧
    ((runImport submit opts rows).success + (runImport submit opts rows).error ≤
      rows.length) := by
  refine ⟨?_, ?_, ?_⟩
  · have h1 := importGo_skipped submit opts rows 0 initialImportState
    simpa [runImport, initialImportState] using h1
  · intro hs
    have h1 := importGo_sum_skip submit opts hs rows 0 initialImportState
    simpa [runImport, initialImportState] using h1
  · have h1 := importGo_sum_le submit opts rows 0 initialImportState
    simpa [runImport, initialImportState] using h1

/-- Witness for C4 (amended) with skip-errors on and a failing row. -/
theorem c4_witness :
    (runImport (fun _ => SubmitResult.created 1) ⟨false, true, 10, 1⟩
        [goodRow, badRow]).success +
      (runImport (fun _ => SubmitResult.created 1) ⟨false, true, 10, 1⟩
        [goodRow, badRow]).error = 2 :=
  (c4_report_counts (fun _ => SubmitResult.created 1) ⟨false, true, 10, 1⟩
    [goodRow, badRow]).2.1 rfl

/-- C5: with dryRun true the import loop never issues a create-appointment
call, under every option combination; and for a valid row set — every row
transforms successfully — the success count equals the number of
transform-succeeding rows, which is all of them, with no error outcomes;
the validation and transform functions are the very ones of a live run. -/
theorem c5_dry_run (submit : AppointmentPayload → SubmitResult)
    (opts : ImportOptions) (rows : List Row) (hd : opts.dryRun = true) :
    ((runImport submit opts rows).submits = 0) ∧
    ((∀ r ∈ rows, (csv_to_appointment_data r).isSome) →
      (runImport submit opts rows).success =
        (rows.filter (fun r => (csv_to_appointment_data r).isSome)).length ∧
      (runImport submit opts rows).success = rows.length ∧
      (runImport submit opts rows).error = 0) := by
  constructor
  · have h1 := importGo_dry_submits submit opts hd rows 0 initialImportState
    simpa [runImport, initialImportState] using h1
  · intro hv
    have hall := importGo_dry_allvalid submit opts hd rows hv 0 initialImportState
    have hfil : rows.filter (fun r => (csv_to_appointment_data r).isSome) = rows :=
      List.filter_eq_self.mpr (fun a ha => by simpa using hv a ha)
    have hall2 : runImport submit opts rows =
        { initialImportState with
            success := initialImportState.success + rows.length } := hall
    refine ⟨?_, ?_, ?_⟩ <;> rw [hall2] <;> simp [initialImportState, hfil]

/-- Witness for C5 at a one-row valid set in dry-run mode. -/
theorem c5_witness :
    (runImport (fun _ => SubmitResult.created 1) ⟨true, true, 10, 1⟩
      [goodRow]).submits = 0 ∧
    (runImport (fun _ => SubmitResult.created 1) ⟨true, true, 10, 1⟩
      [goodRow]).success = 1 :=
  ⟨(c5_dry_run (fun _ => SubmitResult.created 1) ⟨true, true, 10, 1⟩ [goodRow] rfl).1,
   ((c5_dry_run (fun _ => SubmitResult.created 1) ⟨true, true, 10, 1⟩ [goodRow] rfl).2
     (by decide)).2.1⟩

/-- C6: in a live run where every row before and after row k submits
cleanly and row k's transform raises, skipErrorsAndContinue true yields a
report with exactly one error outcome, at row k, and a success outcome for
every other row; skipErrorsAndContinue false yields outcomes only for rows
1..k — the first k-1 rows as successes and row k as the error — and the
loop halts at row k. -/
theorem c6_error_isolation (submit : AppointmentPayload → SubmitResult)
    (pre post : List Row) (bad : Row) (b d : Nat)
    (hbad : csv_to_appointment_data bad = none)
    (hpre : ∀ r ∈ pre, liveOk submit r = true)
    (hpost : ∀ r ∈ post, liveOk submit r = true) :
    (runImport submit ⟨false, true, b, d⟩ (pre ++ bad :: post) =
      ⟨pre.length + post.length, 1, 0, [pre.length + 1],
       rowNums 0 pre.length ++ rowNums (pre.length + 1) post.length,
       pre.length + post.length⟩) ∧
    (runImport submit ⟨false, false, b, d⟩ (pre ++ bad :: post) =
      ⟨pre.length, 1, 0, [pre.length + 1], rowNums 0 pre.length,
       pre.length⟩) := by
  constructor
  · unfold runImport
    rw [importGo_ok_append submit ⟨false, true, b, d⟩ rfl pre (bad :: post) hpre 0
        initialImportState]
    rw [importGo_cons_fail submit ⟨false, true, b, d⟩ bad post (0 + pre.length) _ hbad]
    simp only [initialImportState, if_true]
    rw [importGo_ok_all submit ⟨false, true, b, d⟩ rfl post hpost
        (0 + pre.length + 1) (recordError
          ⟨0 + pre.length, 0, 0, [], [] ++ rowNums 0 pre.length, 0 + pre.length⟩
          (0 + pre.length + 1))]
    simp [recordError]
  · unfold runImport
    rw [importGo_ok_append submit ⟨false, false, b, d⟩ rfl pre (bad :: post) hpre 0
        initialImportState]
    rw [importGo_cons_fail submit ⟨false, false, b, d⟩ bad post (0 + pre.length) _ hbad]
    simp [initialImportState, recordError]

/-- Witness for C6 with one clean row before and one after the failing
row, halting mode. -/
theorem c6_witness :
    runImport (fun _ => SubmitResult.created 7) ⟨false, false, 10, 1⟩
      [goodRow, badRow, goodRow] = ⟨1, 1, 0, [2], [1], 1⟩ :=
  (c6_error_isolation (fun _ => SubmitResult.created 7) [goodRow] [goodRow] badRow
    10 1 rfl (by decide) (by decide)).2

/-- The customer sub-record read by the export flattening
(src/csv_handler.py lines 61, 77-80); an absent key is none (a JSON null
field is modelled as an absent key). -/
structure Customer where
  firstName : Option String
  lastName : Option String
  email : Option String
  phone : Option String

/-- A payment sub-record read by the export flattening
(src/csv_handler.py lines 62-63, 83-85). -/
structure Payment where
  status : Option String
  gateway : Option String
  amount : Option Int

/-- A booking sub-record of an appointment as read by the export
(src/csv_handler.py lines 60-89). -/
structure BookingRec where
  id : Option Int
  status : Option String
  customerId : Option Int
  customer : Option Customer
  payments : List Payment
  persons : Option Int
  price : Option Int
  duration : Option Int
  customFields : Option String
  token : Option String

/-- An appointment record as read by the export
(src/csv_handler.py lines 33-89). -/
structure Appointment where
  id : Option Int
  bookingStart : Option String
  bookingEnd : Option String
  status : Option String
  serviceId : Option Int
  providerId : Option Int
  locationId : Option Int
  internalNotes : Option String
  duration : Option Int
  bookings : List BookingRec

/-- One flattened output row: column name to cell value. -/
abbrev ExportRow := List (String × JVal)

/-- An optional integer cell: Python None exports as a null cell. -/
def optIntJ : Option Int → JVal
  | some n => JVal.int n
  | none => JVal.null

/-- An optional text cell: Python None exports as a null cell. -/
def optStrJ : Option String → JVal
  | some s => JVal.str s
  | none => JVal.null

/-- The empty dict substituted for a missing customer (line 61). -/
def emptyCustomer : Customer := ⟨none, none, none, none⟩

/-- The empty dict substituted for an empty payments list (line 63). -/
def emptyPayment : Payment := ⟨none, none, none⟩

/-- The row built for an appointment without bookings
(src/csv_handler.py lines 39-57). -/
def noBookingRow (apt : Appointment) : ExportRow :=
  [("appointment_id", optIntJ apt.id),
   ("booking_start", optStrJ apt.bookingStart),
   ("booking_end", optStrJ apt.bookingEnd),
   ("status", optStrJ apt.status),
   ("service_id", optIntJ apt.serviceId),
   ("provider_id", optIntJ apt.providerId),
   ("location_id", optIntJ apt.locationId),
   ("internal_notes", JVal.str (apt.internalNotes.getD "")),
   ("customer_id", JVal.null),
   ("customer_name", JVal.str ""),
   ("customer_email", JVal.str ""),
   ("customer_phone", JVal.str ""),
   ("persons", JVal.int 0),
   ("price", JVal.int 0),
   ("payment_status", JVal.str ""),
   ("payment_gateway", JVal.str "")]

/-- The row built for one (appointment, booking) pair
(src/csv_handler.py lines 60-90), with the nested customer and first
payment pulled up to flat columns. -/
def bookingRow (apt : Appointment) (b : BookingRec) : ExportRow :=
  [("appointment_id", optIntJ apt.id),
   ("booking_id", optIntJ b.id),
   ("booking_start", optStrJ apt.bookingStart),
   ("booking_end", optStrJ apt.bookingEnd),
   ("status", optStrJ apt.status),
   ("booking_status", optStrJ b.status),
   ("service_id", optIntJ apt.serviceId),
   ("provider_id", optIntJ apt.providerId),
   ("location_id", optIntJ apt.locationId),
   ("internal_notes", JVal.str (apt.internalNotes.getD "")),
   ("customer_id", optIntJ b.customerId),
   ("customer_first_name", JVal.str ((b.customer.getD emptyCustomer).firstName.getD "")),
   ("customer_last_name", JVal.str ((b.customer.getD emptyCustomer).lastName.getD "")),
   ("customer_email", JVal.str ((b.customer.getD emptyCustomer).email.getD "")),
   ("customer_phone", JVal.str ((b.customer.getD emptyCustomer).phone.getD "")),
   ("persons", JVal.int (b.persons.getD 1)),
   ("price", JVal.int (b.price.getD 0)),
   ("payment_status", JVal.str ((b.payments.headD emptyPayment).status.getD "")),
   ("payment_gateway", JVal.str ((b.payments.headD emptyPayment).gateway.getD "")),
   ("payment_amount", JVal.int ((b.payments.headD emptyPayment).amount.getD 0)),
   ("duration", JVal.int (b.duration.getD (apt.duration.getD 0))),
   ("custom_fields", JVal.str (b.customFields.getD "")),
   ("token", JVal.str (b.token.getD ""))]

/-- The rows one appointment contributes (src/csv_handler.py lines 33-90):
one per booking, or a single no-booking row. -/
def aptRows (apt : Appointment) : List ExportRow :=
  if apt.bookings.isEmpty then [noBookingRow apt]
  else apt.bookings.map (bookingRow apt)

/-- CSVHandler.export_appointments_to_csv (src/csv_handler.py lines
16-92); the input is modelled as the optional data.appointments list, none
standing for a response without that envelope, which yields an empty
frame. -/
def export_appointments_to_csv : Option (List Appointment) → List ExportRow
  | none => []
  | some apts => (apts.map aptRows).flatten

theorem aptRows_length (apt : Appointment) :
    (aptRows apt).length = max 1 apt.bookings.length := by
  unfold aptRows
  cases hb : apt.bookings with
  | nil => rfl
  | cons b bs => simp [Nat.max_eq_right, Nat.succ_le_succ]

/-- C9: the export emits one row per (appointment, booking) pair — an
appointment with n bookings, n at least 1, contributes exactly n rows and
one with zero bookings exactly one row; nested customer and payment
sub-fields appear as flat top-level columns of each booking row; and the
single row of a zero-booking appointment has its booking-specific columns
empty (null customer id, empty customer and payment text columns,
persons 0). -/
theorem c9_export_flattening (apts : List Appointment) :
    ((export_appointments_to_csv (some apts)).length =
      (apts.map (fun a => max 1 a.bookings.length)).sum) ∧
    (∀ a : Appointment, a.bookings = [] → aptRows a = [noBookingRow a]) ∧
    (∀ a : Appointment, ∀ b ∈ a.bookings,
      (aptRows a).length = a.bookings.length ∧ bookingRow a b ∈ aptRows a) ∧
    (∀ a : Appointment,
      jget (noBookingRow a) "customer_id" = some JVal.null ∧
      jget (noBookingRow a) "customer_email" = some (JVal.str "") ∧
      jget (noBookingRow a) "persons" = some (JVal.int 0) ∧
      jget (noBookingRow a) "payment_status" = some (JVal.str "")) ∧
    (∀ a : Appointment, ∀ b ∈ a.bookings,
      jget (bookingRow a b) "customer_email" =
        some (JVal.str ((b.customer.getD emptyCustomer).email.getD "")) ∧
      jget (bookingRow a b) "payment_status" =
        some (JVal.str ((b.payments.headD emptyPayment).status.getD ""))) := by
  refine ⟨?_, ?_, ?_, ?_, ?_⟩
  · unfold export_appointments_to_csv
    rw [List.length_flatten]
    congr 1
    rw [List.map_map]
    exact List.map_congr_left (fun a _ => aptRows_length a)
  · intro a ha
    unfold aptRows
    rw [ha]
    rfl
  · intro a b hb
    have hlen : (aptRows a).length = a.bookings.length := by
      unfold aptRows
      cases hc : a.bookings with
      | nil => rw [hc] at hb; exact absurd hb (List.not_mem_nil b)
      | cons x xs => simp
    refine ⟨hlen, ?_⟩
    unfold aptRows
    cases hc : a.bookings with
    | nil => rw [hc] at hb; exact absurd hb (List.not_mem_nil b)
    | cons x xs =>
      rw [hc] at hb
      have he : (x :: xs : List BookingRec).isEmpty = false := rfl
      rw [he]
      simp only [Bool.false_eq_true, if_false]
      exact List.mem_map_of_mem (bookingRow a) hb
  · intro a
    refine ⟨rfl, rfl, rfl, rfl⟩
  · intro a b hb
    refine ⟨rfl, rfl⟩

/-- Witness for C9 at a zero-booking appointment. -/
theorem c9_witness :
    aptRows ⟨none, none, none, none, none, none, none, none, none, []⟩ =
      [noBookingRow ⟨none, none, none, none, none, none, none, none, none, []⟩] :=
  (c9_export_flattening []).2.1
    ⟨none, none, none, none, none, none, none, none, none, []⟩ rfl
